import Mathlib

/-!
# Webhook-triggered retraining notifier (`xs1b_craft_a_automat.go`)

A shallow embedding of the single Go source file.  The program keeps one global
`Model`, one `Notifier`, and serves `/notify`: every request starts a goroutine
that (unless its context is already done) retrains the model, reads the metrics
and posts a notification.

Conventions of the embedding

* Go `error` values are `Option GoError` (`none` is `nil`).
* `[][]float32` is a list of lists of 32-bit patterns; a `nil` slice and an empty
  slice are both `[]` (the source never distinguishes them).
* `map[string]float32` is an association list; the map made by `make` is `[]`.
* Functions with a pointer receiver that assign through it return the new value
  of the receiver next to their Go result (state passing).
* The TensorFlow package and the HTTP stack are not part of the repository; the
  calls into them are parameters (`TF`, `Net`).
-/

namespace Xs1b

/-- Go `error` carrying its message; `Option GoError` is a possibly nil error. -/
abbrev GoError := String

/-- A `float32`, kept as its 32-bit pattern: the program only passes these values on. -/
abbrev Float32 := Nat

/-- The Go type `[][]float32`. -/
abbrev Batch := List (List Float32)

/-- The Go type `map[string]float32`. -/
abbrev Metrics := List (String × Float32)

/-- The two calls the source makes into the `tf` package, for a bundle type `B`
(the pointee of `*tf.SavedModelBundle`, nil included). -/
structure TF (B : Type) where
  /-- The call `tf.NewSavedModelBundle()`. -/
  NewSavedModelBundle : B
  /-- The call `tf.Train(bundle, data)`, with both of its results. -/
  Train : B → Batch → B × Option GoError

/-- Source lines 33-35: `type Model struct { *tf.SavedModelBundle }`. -/
structure Model (B : Type) where
  SavedModelBundle : B
deriving DecidableEq, Repr

/-- Source lines 38-40. -/
def NewModel {B : Type} (tf : TF B) : Model B :=
  { SavedModelBundle := tf.NewSavedModelBundle }

/-- Source lines 43-47.  The first result of `tf.Train` is stored in the receiver,
the second is assigned to the blank identifier, and `nil` is returned. -/
def Model.Train {B : Type} (tf : TF B) (m : Model B) (data : Batch) :
    Model B × Option GoError :=
  let r := tf.Train m.SavedModelBundle data
  ({ m with SavedModelBundle := r.1 }, none)

/-- Source lines 50-55: a fresh empty map and a nil error. -/
def Model.GetPerformanceMetrics {B : Type} (_m : Model B) : Metrics × Option GoError :=
  let metrics : Metrics := []
  (metrics, none)

/-- Source lines 58-60. -/
structure Notifier where
  url : String
deriving DecidableEq, Repr

/-- Source lines 63-65. -/
def NewNotifier (url : String) : Notifier :=
  { url := url }

/-- What the source hands to `http.NewRequest`: method, URL and body reader
(`none` is the `nil` reader: a request without body). -/
structure Request where
  method : String
  url : String
  body : Option (List Nat)
deriving DecidableEq, Repr

/-- The part of `http.Response` a caller could inspect. -/
structure Response where
  StatusCode : Nat
deriving DecidableEq, Repr

/-- Result of `client.Do` on a non-nil request: a transport error (nil response)
or a response of any status (nil error). -/
inductive DoResult where
  | err (e : GoError)
  | resp (r : Response)
deriving DecidableEq, Repr

/-- The HTTP stack as the source uses it. -/
structure Net where
  /-- Whether `http.NewRequest` accepts the URL string. -/
  parseURL : String → Bool
  /-- The call `client.Do(req)` for a non-nil `req`. -/
  Do : Request → DoResult

/-- A Go call either returns a value or panics. -/
inductive Outcome (α : Type) where
  | ret (a : α)
  | panic
deriving DecidableEq, Repr

/-- The call `http.NewRequest(method, url, body)` with its error discarded, as on
source line 71: the request, or `none` for the nil pointer returned with an error. -/
def NewRequest (net : Net) (method url : String) (body : Option (List Nat)) : Option Request :=
  if net.parseURL url then some { method := method, url := url, body := body } else none

/-- The request value of source line 71; `metrics` is not used by the source. -/
def Notifier.buildRequest (net : Net) (n : Notifier) (_metrics : Metrics) : Option Request :=
  NewRequest net "POST" n.url none

/-- Source lines 68-78.  `client.Do` dereferences its argument, so a nil request
panics; otherwise the transport error is returned, and `nil` for any response. -/
def Notifier.Notify (net : Net) (n : Notifier) (metrics : Metrics) : Outcome (Option GoError) :=
  match n.buildRequest net metrics with
  | none => .panic
  | some req =>
    match net.Do req with
    | .err e => .ret (some e)
    | .resp _ => .ret none

/-- The four `log.Println` statements of the goroutine (source lines 99, 103, 107, 111). -/
inductive LogSite where
  | timeout
  | train
  | metrics
  | notify
deriving DecidableEq, Repr

/-- Observable actions of the retrain goroutine, in program order. -/
inductive Event where
  | callTrain (data : Batch)
  | callMetrics
  | callNotify (m : Metrics)
  | log (site : LogSite) (msg : String)
deriving DecidableEq, Repr

/-- Whether the event is a written log entry. -/
def Event.isLog : Event → Bool
  | .log _ _ => true
  | _ => false

/-- Whether the event is an invocation of `Model.Train`. -/
def Event.isTrain : Event → Bool
  | .callTrain _ => true
  | _ => false

/-- Whether the event is an invocation of `Notifier.Notify`. -/
def Event.isNotify : Event → Bool
  | .callNotify _ => true
  | _ => false

/-- What one run of the goroutine leaves behind. -/
structure TaskResult (B : Type) where
  model : Model B
  events : List Event
  crashed : Bool
deriving DecidableEq, Repr

/-- Go's `select` with one receive case and a `default` (source lines 97-100):
the receive on `ctx.Done()` is taken when the channel is closed, `default` otherwise. -/
def selectsDone (ctxDone : Bool) : Bool := ctxDone

/-- Source lines 96-116: the body of the goroutine, run on the shared `model`
with the captured `data`, `ctxDone` telling whether `ctx.Done()` is closed when
the `select` executes. -/
def retrainGoroutine {B : Type} (tf : TF B) (net : Net) (notifier : Notifier)
    (model : Model B) (data : Batch) (ctxDone : Bool) : TaskResult B :=
  if selectsDone ctxDone then
    { model := model, events := [.log .timeout "Retraining timeout"], crashed := false }
  else
    let t := model.Train tf data
    match t.2 with
    | some e =>
      { model := t.1, events := [.callTrain data, .log .train e], crashed := false }
    | none =>
      let g := t.1.GetPerformanceMetrics
      match g.2 with
      | some e =>
        { model := t.1, events := [.callTrain data, .callMetrics, .log .metrics e],
          crashed := false }
      | none =>
        match notifier.Notify net g.1 with
        | .panic =>
          { model := t.1, events := [.callTrain data, .callMetrics, .callNotify g.1],
            crashed := true }
        | .ret (some e) =>
          { model := t.1,
            events := [.callTrain data, .callMetrics, .callNotify g.1, .log .notify e],
            crashed := false }
        | .ret none =>
          { model := t.1, events := [.callTrain data, .callMetrics, .callNotify g.1],
            crashed := false }

/-- Number of log entries among the events. -/
def logCount (es : List Event) : Nat := (es.filter Event.isLog).length

/-- Number of `Model.Train` invocations among the events. -/
def trainCount (es : List Event) : Nat := (es.filter Event.isTrain).length

/-- Number of `Notifier.Notify` invocations among the events. -/
def notifyCount (es : List Event) : Nat := (es.filter Event.isNotify).length

/-- The inbound `*http.Request` of the `/notify` handler, reduced to its body. -/
structure HttpRequest where
  body : String
deriving DecidableEq, Repr

/-- The threads of control while one `/notify` request is served: the handler
function, the goroutine it starts, and the deadline timer of `context.WithTimeout`. -/
inductive Thread where
  | handler
  | goroutine
  | timer
deriving DecidableEq, Repr

/-- State of the process while one request is served.

* `model`: the global model shared by handler closures;
* `pc`: `0` before the handler body ran, `1` after the `go` statement (the
  deferred `cancel` still pending), `2` after the handler returned;
* `ctxDone`: `none` before `context.WithTimeout`, then whether `ctx.Done()` is closed;
* `pending`: the started goroutine that has not yet executed its `select`, with
  the `data` it captured;
* `written`: the status given to `w.WriteHeader`, if the handler called it;
* `events`: what the goroutine did; `crashed`: an unrecovered panic ended the process. -/
structure Sys (B : Type) where
  model : Model B
  pc : Nat
  ctxDone : Option Bool
  pending : Option Batch
  written : Option Nat
  events : List Event
  crashed : Bool
deriving DecidableEq, Repr

/-- The process as a request arrives. -/
def Sys.init {B : Type} (model : Model B) : Sys B :=
  { model := model, pc := 0, ctxDone := none, pending := none, written := none,
    events := [], crashed := false }

/-- One scheduling step of thread `t` (source lines 88-117); a thread that cannot
move leaves the state as it is.

* handler, `pc = 0`: lines 90-96, `data` is the nil slice, the context is created,
  `cancel` is deferred and the goroutine is started;
* handler, `pc = 1`: line 117, the handler returns and the deferred `cancel()` closes `ctx.Done()`;
* goroutine: lines 97-115 on the current model and context state;
* timer: the deadline of the context passes. -/
def step {B : Type} (tf : TF B) (net : Net) (notifier : Notifier) (_r : HttpRequest)
    (t : Thread) (s : Sys B) : Sys B :=
  if s.crashed then s
  else
    match t with
    | .handler =>
      match s.pc with
      | 0 =>
        let data : Batch := []
        { s with pc := 1, ctxDone := some false, pending := some data }
      | 1 => { s with pc := 2, ctxDone := some true }
      | _ => s
    | .goroutine =>
      match s.pending, s.ctxDone with
      | some data, some d =>
        let res := retrainGoroutine tf net notifier s.model data d
        { s with model := res.model, events := s.events ++ res.events, pending := none,
                 crashed := res.crashed }
      | _, _ => s
    | .timer =>
      match s.ctxDone with
      | some _ => { s with ctxDone := some true }
      | none => s

/-- Runs the threads in the order given by the schedule. -/
def run {B : Type} (tf : TF B) (net : Net) (notifier : Notifier) (r : HttpRequest)
    (sched : List Thread) (s : Sys B) : Sys B :=
  sched.foldl (fun acc t => step tf net notifier r t acc) s

/-- Status line of the response: the one the handler wrote, and `200` when it
returned without writing any (the behaviour of the `net/http` server). -/
def responseStatus {B : Type} (s : Sys B) : Nat := s.written.getD 200

/-- Whether a status code is a client error. -/
def isClientError (code : Nat) : Bool := 400 ≤ code && code < 500

/-- Whether a status code is a success. -/
def isSuccess (code : Nat) : Bool := 200 ≤ code && code < 300

/-- The notifier made in `main` (source line 85). -/
def mainNotifier : Notifier := NewNotifier "https://example.com/notify"

/-! ### Concrete environments used to evaluate the program -/

/-- A framework whose training always succeeds and advances the bundle. -/
def okTF : TF Nat :=
  { NewSavedModelBundle := 1
    Train := fun b data => (b + 1 + data.length, none) }

/-- A framework whose training always fails, returning the zero bundle with the error. -/
def failTF : TF Nat :=
  { NewSavedModelBundle := 1
    Train := fun _ _ => (0, some "training failed") }

/-- An HTTP stack that accepts every non-empty URL and answers every request with `code`. -/
def statusNet (code : Nat) : Net :=
  { parseURL := fun u => u != ""
    Do := fun _ => .resp { StatusCode := code } }

/-- An HTTP stack that accepts every non-empty URL and cannot reach any host. -/
def downNet : Net :=
  { parseURL := fun u => u != ""
    Do := fun _ => .err "connection refused" }

/-- A metrics snapshot with one entry. -/
def accuracyOnly : Metrics := [("accuracy", 1064514355)]

/-- A metrics snapshot with another entry. -/
def lossOnly : Metrics := [("loss", 1036831949)]

/-- Whether a call outcome is a returned non-nil error. -/
def Outcome.isError : Outcome (Option GoError) → Bool
  | .ret (some _) => true
  | _ => false

/-- Delivery failure in the sense of the specification: the HTTP client reported a
transport error, or the response carries a status outside the success class. -/
def deliveryFailed : DoResult → Bool
  | .err _ => true
  | .resp r => !isSuccess r.StatusCode

/-- The process after the handler body ran and the goroutine executed its `select`
before the handler returned. -/
def goroutineFirst : List Thread := [.handler, .goroutine, .handler]

/-- The process after the handler returned (running the deferred `cancel()`)
before the goroutine executed its `select`. -/
def handlerFirst : List Thread := [.handler, .handler, .goroutine]

/-! ### Shared lemmas -/

theorem Train_eq {B : Type} (tf : TF B) (m : Model B) (data : Batch) :
    m.Train tf data = ({ SavedModelBundle := (tf.Train m.SavedModelBundle data).1 }, none) :=
  rfl

theorem retrainGoroutine_done {B : Type} (tf : TF B) (net : Net) (notifier : Notifier)
    (model : Model B) (data : Batch) :
    retrainGoroutine tf net notifier model data true =
      { model := model, events := [.log .timeout "Retraining timeout"], crashed := false } :=
  rfl

theorem retrainGoroutine_default {B : Type} (tf : TF B) (net : Net) (notifier : Notifier)
    (model : Model B) (data : Batch) :
    retrainGoroutine tf net notifier model data false =
      { model := (model.Train tf data).1
        events := [.callTrain data, .callMetrics, .callNotify []] ++
          (match notifier.Notify net [] with
            | .ret (some e) => [.log .notify e]
            | _ => [])
        crashed := (match notifier.Notify net [] with
            | .panic => true
            | _ => false) } := by
  simp only [retrainGoroutine, selectsDone, Model.Train, Model.GetPerformanceMetrics]
  cases h : notifier.Notify net [] with
  | panic => simp
  | ret a => cases a <;> simp

theorem step_written {B : Type} (tf : TF B) (net : Net) (notifier : Notifier)
    (r : HttpRequest) (t : Thread) (s : Sys B) :
    (step tf net notifier r t s).written = s.written := by
  unfold step
  split
  · rfl
  · cases t with
    | handler => dsimp only; split <;> rfl
    | goroutine => dsimp only; split <;> rfl
    | timer => dsimp only; split <;> rfl

theorem run_written {B : Type} (tf : TF B) (net : Net) (notifier : Notifier)
    (r : HttpRequest) (sched : List Thread) (s : Sys B) :
    (run tf net notifier r sched s).written = s.written := by
  induction sched generalizing s with
  | nil => rfl
  | cons t ts ih =>
    show (run tf net notifier r ts (step tf net notifier r t s)).written = s.written
    rw [ih, step_written]

theorem step_body_irrelevant {B : Type} (tf : TF B) (net : Net) (notifier : Notifier)
    (r r2 : HttpRequest) (t : Thread) (s : Sys B) :
    step tf net notifier r t s = step tf net notifier r2 t s :=
  rfl

theorem run_body_irrelevant {B : Type} (tf : TF B) (net : Net) (notifier : Notifier)
    (r r2 : HttpRequest) (sched : List Thread) (s : Sys B) :
    run tf net notifier r sched s = run tf net notifier r2 sched s := by
  induction sched generalizing s with
  | nil => rfl
  | cons t ts ih =>
    show run tf net notifier r ts (step tf net notifier r t s) =
      run tf net notifier r2 ts (step tf net notifier r2 t s)
    rw [ih, step_body_irrelevant tf net notifier r r2]

/-- Once the goroutine is finished (nothing pending, handler body already run), no
thread changes the model or the events any more. -/
theorem step_idle {B : Type} (tf : TF B) (net : Net) (notifier : Notifier)
    (r : HttpRequest) (t : Thread) (s : Sys B) (hp : s.pending = none) (hpc : s.pc ≠ 0) :
    (step tf net notifier r t s).model = s.model ∧
    (step tf net notifier r t s).events = s.events ∧
    (step tf net notifier r t s).pending = none ∧
    (step tf net notifier r t s).pc ≠ 0 := by
  unfold step
  split
  · exact ⟨rfl, rfl, hp, hpc⟩
  · cases t with
    | handler =>
      dsimp only
      split
      · rename_i h0; exact absurd h0 hpc
      · exact ⟨rfl, rfl, hp, by simp⟩
      · exact ⟨rfl, rfl, hp, hpc⟩
    | goroutine =>
      dsimp only
      split
      · rename_i h1 _; rw [hp] at h1; cases h1
      · exact ⟨rfl, rfl, hp, hpc⟩
    | timer =>
      dsimp only
      split
      · exact ⟨rfl, rfl, hp, hpc⟩
      · exact ⟨rfl, rfl, hp, hpc⟩

theorem run_idle {B : Type} (tf : TF B) (net : Net) (notifier : Notifier)
    (r : HttpRequest) (sched : List Thread) (s : Sys B) (hp : s.pending = none)
    (hpc : s.pc ≠ 0) :
    (run tf net notifier r sched s).model = s.model ∧
    (run tf net notifier r sched s).events = s.events := by
  induction sched generalizing s with
  | nil => exact ⟨rfl, rfl⟩
  | cons t ts ih =>
    have hs := step_idle tf net notifier r t s hp hpc
    have h := ih (step tf net notifier r t s) hs.2.2.1 hs.2.2.2
    show (run tf net notifier r ts (step tf net notifier r t s)).model = s.model ∧
      (run tf net notifier r ts (step tf net notifier r t s)).events = s.events
    rw [h.1, h.2, hs.1, hs.2.1]
    exact ⟨rfl, rfl⟩

/-! ### Model -/

/-- C1, evaluated on a failing framework call: `tf.Train` reports an error and
returns the zero bundle, yet `Model.Train` stores that bundle in the model (the
state differs from the state before the call) and returns a nil error. -/
theorem C1_train_stores_result_of_failed_call :
    (failTF.Train (NewModel failTF).SavedModelBundle [[1065353216]]).2 = some "training failed" ∧
    ((NewModel failTF).Train failTF [[1065353216]]).1 ≠ NewModel failTF ∧
    ((NewModel failTF).Train failTF [[1065353216]]).1 = { SavedModelBundle := 0 } ∧
    ((NewModel failTF).Train failTF [[1065353216]]).2 = none := by
  decide

/-- C2, refuted: the batch is empty and `Model.Train` nevertheless returns a nil error. -/
theorem C2_empty_batch_is_accepted :
    ¬ (([] : Batch).length = 0 → ((NewModel okTF).Train okTF []).2 ≠ none) := by
  decide

/-- C2, amended: `Model.Train` does not validate the batch.  For every model and
every batch, the empty one included, on which the framework call reports no
failure, `Model.Train` returns a nil error (the report of the framework call) and
the model holds the bundle the framework call returned. -/
theorem C2_train_accepts_every_batch {B : Type} (tf : TF B) (m : Model B) (data : Batch)
    (h : (tf.Train m.SavedModelBundle data).2 = none) :
    (m.Train tf data).2 = none ∧
    (m.Train tf data).2 = (tf.Train m.SavedModelBundle data).2 ∧
    (m.Train tf data).1.SavedModelBundle = (tf.Train m.SavedModelBundle data).1 := by
  refine ⟨rfl, ?_, rfl⟩
  rw [h]
  rfl

/-- C2, amended, at the framework that always succeeds and the empty batch. -/
theorem C2_train_accepts_every_batch_witness :
    (okTF.Train (NewModel okTF).SavedModelBundle []).2 = none ∧
    (((NewModel okTF).Train okTF []).2 = none ∧
      ((NewModel okTF).Train okTF []).2 = (okTF.Train (NewModel okTF).SavedModelBundle []).2 ∧
      ((NewModel okTF).Train okTF []).1.SavedModelBundle =
        (okTF.Train (NewModel okTF).SavedModelBundle []).1) :=
  ⟨by decide, C2_train_accepts_every_batch okTF (NewModel okTF) [] (by decide)⟩

/-- C3, refuted: on a model fresh from `NewModel`, with no training at all,
`GetPerformanceMetrics` returns a nil error. -/
theorem C3_fresh_model_has_metrics :
    ¬ ((NewModel okTF).GetPerformanceMetrics.2 ≠ none) := by
  decide

/-- C3, amended: `GetPerformanceMetrics` returns the empty metrics map with a nil
error for every model: for one fresh from `NewModel`, and for the model left by
any `Train` call, whatever the framework call reported. -/
theorem C3_metrics_always_empty_and_nil {B : Type} (tf : TF B) (m : Model B) (data : Batch) :
    m.GetPerformanceMetrics = ([], none) ∧
    (NewModel tf).GetPerformanceMetrics = ([], none) ∧
    (m.Train tf data).1.GetPerformanceMetrics = ([], none) :=
  ⟨rfl, rfl, rfl⟩

/-! ### Notifier -/

/-- C4, refuted: the endpoint answers 500 without transport error, which is a
delivery failure, and `Notify` returns a nil error. -/
theorem C4_status_500_is_not_reported :
    ¬ (Outcome.isError (mainNotifier.Notify (statusNet 500) accuracyOnly) = true ↔
        deliveryFailed ((statusNet 500).Do
          { method := "POST", url := "https://example.com/notify", body := none }) = true) := by
  decide

/-- C4, amended: `Notify` returns a non-nil error exactly when the HTTP client
returned a transport error, and that error is the one returned; it returns nil
exactly when the client returned a response, whatever its status code. -/
theorem C4_notify_reports_transport_errors_only (net : Net) (n : Notifier) (m : Metrics) :
    (∀ e, n.Notify net m = .ret (some e) ↔
      ∃ req, n.buildRequest net m = some req ∧ net.Do req = .err e) ∧
    (n.Notify net m = .ret none ↔
      ∃ req r, n.buildRequest net m = some req ∧ net.Do req = .resp r) := by
  unfold Notifier.Notify
  cases hb : n.buildRequest net m with
  | none => simp
  | some req =>
    cases hd : net.Do req with
    | err e0 => simp [hd]
    | resp r0 => simp [hd]

/-- C5, evaluated on two different non-empty snapshots: the request is a POST to
the configured URL, and for both snapshots its body is nil. -/
theorem C5_request_body_is_nil_for_every_snapshot :
    accuracyOnly ≠ lossOnly ∧ accuracyOnly ≠ [] ∧ lossOnly ≠ [] ∧
    mainNotifier.buildRequest (statusNet 200) accuracyOnly =
      some { method := "POST", url := mainNotifier.url, body := none } ∧
    mainNotifier.buildRequest (statusNet 200) lossOnly =
      some { method := "POST", url := mainNotifier.url, body := none } := by
  decide

/-! ### The `/notify` handler and its goroutine -/

/-- C6, refuted: the request body is empty, the goroutine runs before the handler
returns; the response status is not a client error, `Train` is invoked and the
model is changed. -/
theorem C6_empty_body_starts_retraining :
    ¬ (isClientError (responseStatus (run okTF (statusNet 200) mainNotifier { body := "" }
          goroutineFirst (Sys.init (NewModel okTF)))) = true ∧
        trainCount (run okTF (statusNet 200) mainNotifier { body := "" }
          goroutineFirst (Sys.init (NewModel okTF))).events = 0 ∧
        (run okTF (statusNet 200) mainNotifier { body := "" }
          goroutineFirst (Sys.init (NewModel okTF))).model = NewModel okTF) := by
  decide

/-- C6, amended: for every request body, malformed, empty or not, and every
schedule, the handler writes no status (the response is the default 200, not a
client error), its first step starts the retrain task with the nil batch, and the
run of the process does not depend on the body. -/
theorem C6_handler_ignores_body {B : Type} (tf : TF B) (net : Net) (notifier : Notifier)
    (model : Model B) (r : HttpRequest) (sched : List Thread) :
    (run tf net notifier r sched (Sys.init model)).written = none ∧
    responseStatus (run tf net notifier r sched (Sys.init model)) = 200 ∧
    isClientError (responseStatus (run tf net notifier r sched (Sys.init model))) = false ∧
    (step tf net notifier r .handler (Sys.init model)).pending = some [] ∧
    (∀ r2 : HttpRequest, run tf net notifier r2 sched (Sys.init model) =
      run tf net notifier r sched (Sys.init model)) := by
  have hw : (run tf net notifier r sched (Sys.init model)).written = none := by
    rw [run_written]
    rfl
  refine ⟨hw, ?_, ?_, rfl, fun r2 => run_body_irrelevant tf net notifier r2 r sched _⟩
  · simp [responseStatus, hw]
  · simp [responseStatus, hw, isClientError]

/-- C7, evaluated on the full-success path (context not done, the framework call
reports no failure, the endpoint answers 200): the goroutine trains, reads the
metrics and notifies without panic, and writes no log entry at all, where one
terminal entry is expected. -/
theorem C7_full_success_writes_no_log_entry :
    (okTF.Train (NewModel okTF).SavedModelBundle [[1065353216]]).2 = none ∧
    mainNotifier.Notify (statusNet 200) [] = .ret none ∧
    (retrainGoroutine okTF (statusNet 200) mainNotifier (NewModel okTF) [[1065353216]] false).events =
      [.callTrain [[1065353216]], .callMetrics, .callNotify []] ∧
    (retrainGoroutine okTF (statusNet 200) mainNotifier (NewModel okTF) [[1065353216]] false).crashed =
      false ∧
    logCount (retrainGoroutine okTF (statusNet 200) mainNotifier (NewModel okTF)
      [[1065353216]] false).events = 0 := by
  decide

/-- C8: on the default branch `Train` returns nil (training succeeds for the
task); when `Notify` then returns an error `e`, the goroutine writes exactly that
error as its only log entry and the model it leaves is the model produced by
`Train`; run from the handler, no later step of any thread changes that model. -/
theorem C8_notify_failure_keeps_trained_state {B : Type} (tf : TF B) (net : Net)
    (notifier : Notifier) (model : Model B) (data : Batch) (e : GoError)
    (hNotify : notifier.Notify net (model.Train tf data).1.GetPerformanceMetrics.1 =
      .ret (some e)) :
    (model.Train tf data).2 = none ∧
    (retrainGoroutine tf net notifier model data false).model = (model.Train tf data).1 ∧
    (retrainGoroutine tf net notifier model data false).events.filter Event.isLog =
      [.log .notify e] ∧
    (retrainGoroutine tf net notifier model data false).crashed = false ∧
    (∀ (r : HttpRequest) (rest : List Thread),
      (run tf net notifier r ([Thread.handler, Thread.goroutine] ++ rest)
        (Sys.init model)).model = (model.Train tf []).1) := by
  have hN : notifier.Notify net [] = .ret (some e) := hNotify
  have hg := retrainGoroutine_default tf net notifier model data
  have hg0 := retrainGoroutine_default tf net notifier model []
  rw [hN] at hg hg0
  refine ⟨rfl, by rw [hg], by rw [hg]; rfl, by rw [hg], ?_⟩
  intro r rest
  have hrun : run tf net notifier r ([Thread.handler, Thread.goroutine] ++ rest) (Sys.init model) =
      run tf net notifier r rest
        (step tf net notifier r .goroutine (step tf net notifier r .handler (Sys.init model))) :=
    rfl
  have hstep : step tf net notifier r .goroutine (step tf net notifier r .handler (Sys.init model)) =
      { model := (model.Train tf []).1, pc := 1, ctxDone := some false, pending := none,
        written := none,
        events := [.callTrain [], .callMetrics, .callNotify [], .log .notify e],
        crashed := false } := by
    simp only [step, Sys.init]
    simp [hg0]
  rw [hrun, hstep]
  exact (run_idle tf net notifier r rest _ rfl (Nat.succ_ne_zero 0)).1

/-- C8 at a successful training followed by an unreachable notification endpoint. -/
theorem C8_notify_failure_keeps_trained_state_witness :
    mainNotifier.Notify downNet ((NewModel okTF).Train okTF [[1065353216]]).1.GetPerformanceMetrics.1 =
      .ret (some "connection refused") ∧
    (((NewModel okTF).Train okTF [[1065353216]]).2 = none ∧
      (retrainGoroutine okTF downNet mainNotifier (NewModel okTF) [[1065353216]] false).model =
        ((NewModel okTF).Train okTF [[1065353216]]).1 ∧
      (retrainGoroutine okTF downNet mainNotifier (NewModel okTF) [[1065353216]] false).events.filter
          Event.isLog = [.log .notify "connection refused"] ∧
      (retrainGoroutine okTF downNet mainNotifier (NewModel okTF) [[1065353216]] false).crashed =
        false ∧
      (∀ (r : HttpRequest) (rest : List Thread),
        (run okTF downNet mainNotifier r ([Thread.handler, Thread.goroutine] ++ rest)
          (Sys.init (NewModel okTF))).model = ((NewModel okTF).Train okTF []).1)) :=
  ⟨by decide,
    C8_notify_failure_keeps_trained_state okTF downNet mainNotifier (NewModel okTF)
      [[1065353216]] "connection refused" (by decide)⟩

/-- C9, refuted: when the handler has returned, and so run its deferred `cancel()`,
before the goroutine executes its `select`, the context is done at the `select`,
"Retraining timeout" is logged and `Train` is not invoked. -/
theorem C9_timeout_branch_taken_after_cancel :
    (run okTF (statusNet 200) mainNotifier { body := "" } [.handler, .handler]
      (Sys.init (NewModel okTF))).ctxDone = some true ∧
    ¬ (Event.log .timeout "Retraining timeout" ∉
          (run okTF (statusNet 200) mainNotifier { body := "" } handlerFirst
            (Sys.init (NewModel okTF))).events ∧
        trainCount (run okTF (statusNet 200) mainNotifier { body := "" } handlerFirst
            (Sys.init (NewModel okTF))).events = 1) := by
  decide

/-- C9, amended: the timeout path is live.  The goroutine logs "Retraining timeout"
exactly when the context is done at the moment of its `select`, and then does not
invoke `Train`; it invokes `Train` once exactly when the context is not done.
Both states are reached: scheduled after the handler returned, the goroutine
only logs the timeout and leaves the model as it was; scheduled before, it
invokes `Train` once and logs no timeout. -/
theorem C9_select_follows_context_state {B : Type} (tf : TF B) (net : Net)
    (notifier : Notifier) (model : Model B) (data : Batch) (d : Bool) (r : HttpRequest) :
    (Event.log .timeout "Retraining timeout" ∈
        (retrainGoroutine tf net notifier model data d).events ↔ d = true) ∧
    trainCount (retrainGoroutine tf net notifier model data d).events = (if d then 0 else 1) ∧
    (run tf net notifier r handlerFirst (Sys.init model)).events =
      [.log .timeout "Retraining timeout"] ∧
    (run tf net notifier r handlerFirst (Sys.init model)).model = model ∧
    trainCount (run tf net notifier r goroutineFirst (Sys.init model)).events = 1 ∧
    Event.log .timeout "Retraining timeout" ∉
      (run tf net notifier r goroutineFirst (Sys.init model)).events := by
  have hg := retrainGoroutine_default tf net notifier model data
  have hg0 := retrainGoroutine_default tf net notifier model []
  have hfirst : (run tf net notifier r goroutineFirst (Sys.init model)).events =
      (retrainGoroutine tf net notifier model [] false).events := by
    simp only [run, goroutineFirst, List.foldl, step, Sys.init]
    cases hc : (retrainGoroutine tf net notifier model [] false).crashed <;> simp [hc]
  refine ⟨?_, ?_, rfl, rfl, ?_, ?_⟩
  · cases d with
    | true => simp [retrainGoroutine_done]
    | false =>
      rw [hg]
      cases notifier.Notify net [] with
      | panic => simp
      | ret a => cases a <;> simp
  · cases d with
    | true => rfl
    | false =>
      rw [hg]
      cases notifier.Notify net [] with
      | panic => rfl
      | ret a => cases a <;> rfl
  · rw [hfirst, hg0]
    cases notifier.Notify net [] with
    | panic => rfl
    | ret a => cases a <;> rfl
  · rw [hfirst, hg0]
    cases notifier.Notify net [] with
    | panic => simp
    | ret a => cases a <;> simp

/-- C10: on the default branch, for every batch and every outcome of the framework
call, `Train` returns nil and `GetPerformanceMetrics` returns the empty map with
a nil error, so the goroutine invokes `Train` once, reads the metrics, and invokes
`Notify` exactly once with the empty map; the only log entry it can write is the
transport error of the HTTP client, from the `Notify` branch. -/
theorem C10_default_branch_always_notifies {B : Type} (tf : TF B) (net : Net)
    (notifier : Notifier) (model : Model B) (data : Batch) :
    (model.Train tf data).2 = none ∧
    (model.Train tf data).1.GetPerformanceMetrics = ([], none) ∧
    (retrainGoroutine tf net notifier model data false).events =
      [.callTrain data, .callMetrics, .callNotify []] ++
        (match notifier.buildRequest net [] with
          | none => []
          | some req =>
            match net.Do req with
            | .err e => [.log .notify e]
            | .resp _ => []) ∧
    notifyCount (retrainGoroutine tf net notifier model data false).events = 1 ∧
    trainCount (retrainGoroutine tf net notifier model data false).events = 1 := by
  have hg := retrainGoroutine_default tf net notifier model data
  rw [hg]
  unfold Notifier.Notify
  cases hb : notifier.buildRequest net [] with
  | none => exact ⟨rfl, rfl, rfl, rfl, rfl⟩
  | some req =>
    cases hd : net.Do req with
    | err e => simp [hd, notifyCount, trainCount, Event.isNotify, Event.isTrain, Train_eq,
        Model.GetPerformanceMetrics]
    | resp r0 => simp [hd, notifyCount, trainCount, Event.isNotify, Event.isTrain, Train_eq,
        Model.GetPerformanceMetrics]

end Xs1b
